import Mathlib

/-!
Verification of the docs.rs builds web subsystem (src/web/builds.rs):
build-history listing (HTML and JSON endpoints) and the secured
rebuild-trigger endpoint. Stored build rows, the SQL query in get_builds,
the JSON projection and the rebuild handler are embedded as pure
functions; external collaborators (version resolution, the release
catalog, the build queue) are modelled from the specification, since only
their call sites are part of this file of the repository.
-/

namespace DocsRs

/-- Build status enum, mirroring db::types::BuildStatus (values stored in
the builds.build_status column: success, failure, in_progress). -/
inductive BuildStatus
  | success
  | failure
  | inProgress
deriving DecidableEq, Repr

/-- Modelled from the spec: BuildStatus::is_success is defined in
db::types (outside this file); per the spec the API view collapses status
into a boolean that is true only for Success. -/
def BuildStatus.is_success : BuildStatus → Bool
  | .success => true
  | _ => false

/-- One row of the builds table as selected by get_builds, mirroring the
Build struct. Timestamps are modelled as integers. -/
structure Build where
  id : Int
  rustc_version : Option String
  docsrs_version : Option String
  build_status : BuildStatus
  build_time : Option Int
  errors : Option String
deriving DecidableEq, Repr

/-- One joined row of builds INNER JOIN releases INNER JOIN crates,
carrying the crate name and release version the build belongs to. -/
structure BuildRow where
  crate_name : String
  release_version : String
  build : Build
deriving DecidableEq, Repr

/-- Insert a build into a list kept in descending id order (helper for
the ORDER BY id DESC clause of get_builds). -/
def insertDescById (b : Build) : List Build → List Build
  | [] => [b]
  | x :: xs => if x.id ≤ b.id then b :: x :: xs else x :: insertDescById b xs

/-- Sort a list of builds by descending id (the ORDER BY id DESC clause
of get_builds). -/
def sortDescById : List Build → List Build
  | [] => []
  | x :: xs => insertDescById x (sortDescById xs)

/-- The WHERE clause of the SQL query in get_builds: crates.name = $1 AND
releases.version = $2 AND builds.build_status != 'in_progress'. -/
def buildRowMatches (name version : String) (r : BuildRow) : Bool :=
  r.crate_name == name && r.release_version == version
    && !(r.build.build_status == .inProgress)

/-- get_builds from src/web/builds.rs: select the build rows of the given
crate and version, excluding in_progress rows, ordered by id descending.
The database is modelled as the list of joined rows. -/
def get_builds (db : List BuildRow) (name version : String) : List Build :=
  sortDescById ((db.filter (buildRowMatches name version)).map (fun r => r.build))

theorem insertDescById_perm (b : Build) (l : List Build) :
    (insertDescById b l).Perm (b :: l) := by
  induction l with
  | nil => simp [insertDescById]
  | cons x xs ih =>
    simp only [insertDescById]
    by_cases h : x.id ≤ b.id
    · simp [h]
    · simp only [h, if_false]
      exact ((ih.cons x).trans (List.Perm.swap b x xs))

theorem sortDescById_perm (l : List Build) : (sortDescById l).Perm l := by
  induction l with
  | nil => simp [sortDescById]
  | cons x xs ih =>
    exact (insertDescById_perm x (sortDescById xs)).trans (ih.cons x)

theorem mem_sortDescById {b : Build} {l : List Build} :
    b ∈ sortDescById l ↔ b ∈ l :=
  (sortDescById_perm l).mem_iff

theorem pairwise_insertDescById {b : Build} {l : List Build}
    (h : l.Pairwise (fun x y => y.id ≤ x.id)) :
    (insertDescById b l).Pairwise (fun x y => y.id ≤ x.id) := by
  induction l with
  | nil => simp [insertDescById]
  | cons x xs ih =>
    simp only [insertDescById]
    rcases List.pairwise_cons.mp h with ⟨hxhead, hxs⟩
    by_cases hx : x.id ≤ b.id
    · rw [if_pos hx]
      refine List.Pairwise.cons ?_ h
      intro y hy
      rcases List.mem_cons.mp hy with rfl | hy'
      · exact hx
      · exact le_trans (hxhead y hy') hx
    · rw [if_neg hx]
      refine List.Pairwise.cons ?_ (ih hxs)
      intro y hy
      rcases List.mem_cons.mp ((insertDescById_perm b xs).mem_iff.mp hy) with rfl | hy''
      · exact le_of_not_le hx
      · exact hxhead y hy''

theorem pairwise_sortDescById (l : List Build) :
    (sortDescById l).Pairwise (fun x y => y.id ≤ x.id) := by
  induction l with
  | nil => simp [sortDescById]
  | cons x xs ih =>
    exact pairwise_insertDescById ih

/-- C3: no build record returned by get_builds has status InProgress:
the WHERE clause of the query excludes them at the source; hence neither
the HTML builds page nor the JSON response, both built from get_builds,
can contain one. -/
theorem get_builds_no_in_progress (db : List BuildRow) (name version : String)
    (b : Build) (hb : b ∈ get_builds db name version) :
    b.build_status ≠ .inProgress := by
  have hb' := mem_sortDescById.mp hb
  rcases List.mem_map.mp hb' with ⟨r, hr, rfl⟩
  have hmatch := List.of_mem_filter hr
  simp only [buildRowMatches, Bool.and_eq_true, Bool.not_eq_true', beq_eq_false_iff_ne,
    ne_eq] at hmatch
  exact hmatch.2

/-- C3 witness: a concrete database where the matching rows include an
in-progress build; the returned record is not in progress. -/
theorem get_builds_no_in_progress_witness :
    (⟨1, none, none, .success, none, none⟩ : Build) ∈
        get_builds
          [⟨"foo", "0.1.0", ⟨1, none, none, .success, none, none⟩⟩,
           ⟨"foo", "0.1.0", ⟨2, none, none, .inProgress, none, none⟩⟩]
          "foo" "0.1.0"
      ∧ (⟨1, none, none, .success, none, none⟩ : Build).build_status ≠ .inProgress := by
  refine ⟨by decide, ?_⟩
  exact get_builds_no_in_progress
    [⟨"foo", "0.1.0", ⟨1, none, none, .success, none, none⟩⟩,
     ⟨"foo", "0.1.0", ⟨2, none, none, .inProgress, none, none⟩⟩]
    "foo" "0.1.0" ⟨1, none, none, .success, none, none⟩ (by decide)

/-- C4: assuming the build ids in the database are pairwise distinct
(builds.id is a surrogate primary key, so distinctness is a schema
invariant), every sequence returned by get_builds is strictly descending
in id; in particular consecutive records satisfy id i > id (i+1). -/
theorem get_builds_strict_desc (db : List BuildRow) (name version : String)
    (h : (db.map (fun r => r.build.id)).Nodup) :
    (get_builds db name version).Pairwise (fun x y => y.id < x.id) := by
  have hsorted : (get_builds db name version).Pairwise (fun x y => y.id ≤ x.id) :=
    pairwise_sortDescById _
  have hsub : ((db.filter (buildRowMatches name version)).map (fun r => r.build.id)).Sublist
      (db.map (fun r => r.build.id)) :=
    (List.filter_sublist db).map _
  have hnodup_filtered : ((db.filter (buildRowMatches name version)).map
      (fun r => r.build.id)).Nodup := h.sublist hsub
  have hmapmap : ((db.filter (buildRowMatches name version)).map (fun r => r.build)).map
      (fun b => b.id) = (db.filter (buildRowMatches name version)).map
      (fun r => r.build.id) := by
    rw [List.map_map]
    rfl
  have hperm : ((get_builds db name version).map (fun b => b.id)).Perm
      (((db.filter (buildRowMatches name version)).map (fun r => r.build)).map
        (fun b => b.id)) :=
    (sortDescById_perm _).map _
  have hnodup : ((get_builds db name version).map (fun b => b.id)).Nodup := by
    rw [hmapmap] at hperm
    exact hperm.nodup_iff.mpr hnodup_filtered
  have hne : (get_builds db name version).Pairwise (fun x y => x.id ≠ y.id) :=
    List.pairwise_map.mp hnodup
  exact (hsorted.and hne).imp (fun hxy => lt_of_le_of_ne hxy.1 (Ne.symm hxy.2))

/-- C4 witness: on a concrete database with distinct build ids, the
returned sequence is strictly descending in id. -/
theorem get_builds_strict_desc_witness :
    (([⟨"foo", "0.1.0", ⟨1, none, none, .success, none, none⟩⟩,
       ⟨"foo", "0.1.0", ⟨3, none, none, .failure, none, none⟩⟩,
       ⟨"foo", "0.1.0", ⟨2, none, none, .success, none, none⟩⟩] : List BuildRow).map
        (fun r => r.build.id)).Nodup
      ∧ (get_builds
          [⟨"foo", "0.1.0", ⟨1, none, none, .success, none, none⟩⟩,
           ⟨"foo", "0.1.0", ⟨3, none, none, .failure, none, none⟩⟩,
           ⟨"foo", "0.1.0", ⟨2, none, none, .success, none, none⟩⟩]
          "foo" "0.1.0").Pairwise (fun x y => y.id < x.id) := by
  refine ⟨by decide, ?_⟩
  exact get_builds_strict_desc
    [⟨"foo", "0.1.0", ⟨1, none, none, .success, none, none⟩⟩,
     ⟨"foo", "0.1.0", ⟨3, none, none, .failure, none, none⟩⟩,
     ⟨"foo", "0.1.0", ⟨2, none, none, .success, none, none⟩⟩]
    "foo" "0.1.0" (by decide)

/-- Cache policies used by these handlers, from web::cache::CachePolicy. -/
inductive CachePolicy
  | NoCaching
  | NoStoreMustRevalidate
  | ForeverInCdn
deriving DecidableEq, Repr

/-- Requested version specifier from the URL path, mirroring
web::ReqVersion: the latest alias or a semver specifier string. -/
inductive ReqVersion
  | latest
  | semver (s : String)
deriving DecidableEq, Repr

/-- Modelled from the spec: match_version and the canonical-request
check (into_canonical_req_version_or_else) live outside this file. Per
the spec, a specifier is canonical when it is already the canonical
exact-version string for the target, and the latest alias is served
directly (its canonical path keeps the latest segment). -/
def ReqVersion.is_canonical_for : ReqVersion → String → Bool
  | .latest, _ => true
  | .semver s, v => s == v

/-- The HTML builds page view model mirroring BuildsPage; the metadata
and limits fields come from external collaborators (MetaData, Limits)
and are not modelled. -/
structure BuildsPage where
  builds : List Build
  canonical_url : String
  use_direct_platform_links : Bool
deriving DecidableEq, Repr

/-- Outcome of the HTML builds endpoint: an error propagated from
resolution, a redirect carrying a cache policy, or the rendered page
with its cache policy. -/
inductive HtmlResponse
  | error
  | redirect (path : String) (cache : CachePolicy)
  | page (cache : CachePolicy) (p : BuildsPage)
deriving DecidableEq, Repr

/-- build_list_handler from src/web/builds.rs. The release catalog is an
external collaborator, so version resolution is passed as a function:
resolve name rv is the exact stored version, or none when the crate or
specifier matches no release. A non-canonical specifier redirects to the
canonical path with CachePolicy::ForeverInCdn; otherwise the page is
rendered (cache policy NoCaching via the webpage wrapper) with the
canonical URL always pointing at the latest alias path. -/
def build_list_handler (resolve : String → ReqVersion → Option String)
    (db : List BuildRow) (name : String) (req_version : ReqVersion) : HtmlResponse :=
  match resolve name req_version with
  | none => .error
  | some version =>
    if req_version.is_canonical_for version then
      .page .NoCaching
        { builds := get_builds db name version,
          canonical_url := "/crate/" ++ name ++ "/latest/builds",
          use_direct_platform_links := true }
    else
      .redirect ("/crate/" ++ name ++ "/" ++ version ++ "/builds") .ForeverInCdn

/-- A JSON value, as produced by serde_json. -/
inductive JsonVal
  | null
  | bool (b : Bool)
  | int (n : Int)
  | str (s : String)
  | arr (xs : List JsonVal)
  | obj (fields : List (String × JsonVal))

/-- Serialization of an optional string field. -/
def optStr : Option String → JsonVal
  | none => .null
  | some s => .str s

/-- Serialization of an optional timestamp field. -/
def optTime : Option Int → JsonVal
  | none => .null
  | some t => .int t

/-- The object built per build record inside build_list_json_handler:
the build status is collapsed to a boolean and the errors column is not
emitted. -/
def build_to_json (b : Build) : JsonVal :=
  .obj [("id", .int b.id),
        ("rustc_version", optStr b.rustc_version),
        ("docsrs_version", optStr b.docsrs_version),
        ("build_status", .bool b.build_status.is_success),
        ("build_time", optTime b.build_time)]

/-- Keys of a JSON object, in order (empty for non-objects). -/
def jsonKeys : JsonVal → List String
  | .obj fields => fields.map Prod.fst
  | _ => []

/-- Look up a field of a JSON object by key. -/
def jsonField (k : String) : JsonVal → Option JsonVal
  | .obj fields => (fields.find? (fun p => p.1 == k)).map Prod.snd
  | _ => none

/-- Outcome of the JSON builds endpoint: an error propagated from
resolution, a redirect carrying a cache policy, or a JSON body with its
cache policy and access-control-allow-origin header value. -/
inductive JsonResponse
  | error
  | redirect (path : String) (cache : CachePolicy)
  | content (cache : CachePolicy) (allow_origin : String) (body : JsonVal)

/-- build_list_json_handler from src/web/builds.rs: same resolution and
redirect rule as the HTML handler with the builds.json suffix; on
success serves the projected array with CachePolicy::NoStoreMustRevalidate
and a wildcard allow-origin header. -/
def build_list_json_handler (resolve : String → ReqVersion → Option String)
    (db : List BuildRow) (name : String) (req_version : ReqVersion) : JsonResponse :=
  match resolve name req_version with
  | none => .error
  | some version =>
    if req_version.is_canonical_for version then
      .content .NoStoreMustRevalidate "*"
        (.arr ((get_builds db name version).map build_to_json))
    else
      .redirect ("/crate/" ++ name ++ "/" ++ version ++ "/builds.json") .ForeverInCdn

theorem is_success_eq (s : BuildStatus) : s.is_success = (s == .success) := by
  cases s <;> rfl

/-- C1: when resolution succeeds, a non-canonical specifier is answered
with a redirect to the canonical path and cache policy ForeverInCdn on
both endpoints, the same rule differing only in the builds versus
builds.json suffix; a canonical specifier, the latest alias included, is
served directly with no redirect. -/
theorem build_list_redirect_rule (resolve : String → ReqVersion → Option String)
    (db : List BuildRow) (name : String) (rv : ReqVersion) (v : String)
    (hres : resolve name rv = some v) :
    (rv.is_canonical_for v = false →
        build_list_handler resolve db name rv
            = .redirect ("/crate/" ++ name ++ "/" ++ v ++ "/builds") .ForeverInCdn
          ∧ build_list_json_handler resolve db name rv
            = .redirect (("/crate/" ++ name ++ "/" ++ v ++ "/builds") ++ ".json")
                .ForeverInCdn)
      ∧ (rv.is_canonical_for v = true →
          (∃ p, build_list_handler resolve db name rv = .page .NoCaching p)
            ∧ ∃ body, build_list_json_handler resolve db name rv
                = .content .NoStoreMustRevalidate "*" body)
      ∧ ReqVersion.latest.is_canonical_for v = true := by
  have hsuffix : ("/crate/" ++ name ++ "/" ++ v ++ "/builds") ++ ".json"
      = "/crate/" ++ name ++ "/" ++ v ++ "/builds.json" := by
    rw [String.append_assoc]
    congr 1
  refine ⟨?_, ?_, rfl⟩
  · intro hc
    constructor
    · simp [build_list_handler, hres, hc]
    · rw [hsuffix]
      simp [build_list_json_handler, hres, hc]
  · intro hc
    refine ⟨⟨⟨get_builds db name v, "/crate/" ++ name ++ "/latest/builds", true⟩, ?_⟩,
      ⟨.arr ((get_builds db name v).map build_to_json), ?_⟩⟩
    · simp [build_list_handler, hres, hc]
    · simp [build_list_json_handler, hres, hc]

/-- C1 witness: the specifier 0.2 resolving to version 0.2.0 is not
canonical and both endpoints redirect to the canonical paths with
ForeverInCdn. -/
theorem build_list_redirect_rule_witness :
    (fun (_ : String) (_ : ReqVersion) => some "0.2.0") "aquarelle" (.semver "0.2")
        = some "0.2.0"
      ∧ (ReqVersion.semver "0.2").is_canonical_for "0.2.0" = false
      ∧ build_list_handler (fun _ _ => some "0.2.0") [] "aquarelle" (.semver "0.2")
          = .redirect ("/crate/" ++ "aquarelle" ++ "/" ++ "0.2.0" ++ "/builds")
              .ForeverInCdn
      ∧ build_list_json_handler (fun _ _ => some "0.2.0") [] "aquarelle" (.semver "0.2")
          = .redirect (("/crate/" ++ "aquarelle" ++ "/" ++ "0.2.0" ++ "/builds") ++ ".json")
              .ForeverInCdn := by
  refine ⟨rfl, by decide, ?_, ?_⟩
  · exact ((build_list_redirect_rule (fun _ _ => some "0.2.0") [] "aquarelle"
      (.semver "0.2") "0.2.0" rfl).1 (by decide)).1
  · exact ((build_list_redirect_rule (fun _ _ => some "0.2.0") [] "aquarelle"
      (.semver "0.2") "0.2.0" rfl).1 (by decide)).2

/-- C10: every successful HTML builds page embeds the canonical URL
/crate/name/latest/builds, independent of the requested or resolved
version. -/
theorem build_list_canonical_url (resolve : String → ReqVersion → Option String)
    (db : List BuildRow) (name : String) (rv : ReqVersion)
    (cache : CachePolicy) (p : BuildsPage)
    (h : build_list_handler resolve db name rv = .page cache p) :
    p.canonical_url = "/crate/" ++ name ++ "/latest/builds" := by
  unfold build_list_handler at h
  cases hres : resolve name rv with
  | none => rw [hres] at h; exact absurd h (by simp)
  | some v =>
    rw [hres] at h
    cases hc : rv.is_canonical_for v with
    | false => simp only [hc, Bool.false_eq_true, if_false] at h; exact absurd h (by simp)
    | true =>
      simp only [hc, if_true] at h
      rcases h with ⟨-, rfl⟩
      rfl

/-- C10 witness: a concrete request resolved canonically yields a page
whose canonical URL is the latest alias path, although version 0.1.0 was
requested and resolved. -/
theorem build_list_canonical_url_witness :
    build_list_handler (fun _ _ => some "0.1.0") [] "foo" (.semver "0.1.0")
        = .page .NoCaching ⟨[], "/crate/foo/latest/builds", true⟩
      ∧ (⟨[], "/crate/foo/latest/builds", true⟩ : BuildsPage).canonical_url
        = "/crate/" ++ "foo" ++ "/latest/builds" := by
  constructor
  · simp [build_list_handler, ReqVersion.is_canonical_for, get_builds, sortDescById]
  · exact build_list_canonical_url (fun _ _ => some "0.1.0") [] "foo" (.semver "0.1.0")
      .NoCaching ⟨[], "/crate/foo/latest/builds", true⟩
      (by simp [build_list_handler, ReqVersion.is_canonical_for, get_builds, sortDescById])

/-- C2: every element of the JSON builds response is the projection of a
stored build record carrying exactly the fields id, rustc_version,
docsrs_version, build_status and build_time; build_status is true exactly
when the stored status is Success, and the projection is independent of
the stored error log, so the error text never appears in the response. -/
theorem build_list_json_fields (resolve : String → ReqVersion → Option String)
    (db : List BuildRow) (name : String) (rv : ReqVersion)
    (cache : CachePolicy) (origin : String) (xs : List JsonVal)
    (h : build_list_json_handler resolve db name rv = .content cache origin (.arr xs)) :
    ∀ x ∈ xs, ∃ b : Build,
      x = build_to_json b
        ∧ jsonKeys x
            = ["id", "rustc_version", "docsrs_version", "build_status", "build_time"]
        ∧ jsonField "build_status" x = some (.bool (b.build_status == .success))
        ∧ build_to_json b = build_to_json { b with errors := none } := by
  unfold build_list_json_handler at h
  cases hres : resolve name rv with
  | none => rw [hres] at h; exact absurd h (by simp)
  | some v =>
    rw [hres] at h
    cases hc : rv.is_canonical_for v with
    | false => simp only [hc, Bool.false_eq_true, if_false] at h; exact absurd h (by simp)
    | true =>
      simp only [hc, if_true, JsonResponse.content.injEq, JsonVal.arr.injEq] at h
      intro x hx
      rw [← h.2.2] at hx
      rcases List.mem_map.mp hx with ⟨b, _, rfl⟩
      refine ⟨b, rfl, rfl, ?_, rfl⟩
      simp [build_to_json, jsonField, List.find?, is_success_eq]

/-- C2 witness: a concrete record with an error log and Failure status
projects to the five fields with a false build_status and no trace of the
error text. -/
theorem build_list_json_fields_witness :
    ∃ b : Build,
      build_to_json ⟨7, some "rustc x", some "docsrs y", .failure, some 3, some "boom"⟩
          = build_to_json b
        ∧ jsonKeys (build_to_json
            ⟨7, some "rustc x", some "docsrs y", .failure, some 3, some "boom"⟩)
            = ["id", "rustc_version", "docsrs_version", "build_status", "build_time"]
        ∧ jsonField "build_status" (build_to_json
            ⟨7, some "rustc x", some "docsrs y", .failure, some 3, some "boom"⟩)
            = some (.bool (b.build_status == .success))
        ∧ build_to_json b = build_to_json { b with errors := none } := by
  exact build_list_json_fields (fun _ _ => some "0.1.0")
    [⟨"foo", "0.1.0", ⟨7, some "rustc x", some "docsrs y", .failure, some 3, some "boom"⟩⟩]
    "foo" (.semver "0.1.0") .NoStoreMustRevalidate "*"
    [build_to_json ⟨7, some "rustc x", some "docsrs y", .failure, some 3, some "boom"⟩]
    (by simp [build_list_json_handler, ReqVersion.is_canonical_for, get_builds,
      buildRowMatches, sortDescById, insertDescById])
    (build_to_json ⟨7, some "rustc x", some "docsrs y", .failure, some 3, some "boom"⟩)
    (List.mem_singleton.mpr rfl)

/-- A release of the release catalog (external collaborator), identified
by crate name and exact version string. -/
structure Release where
  name : String
  version : String
deriving DecidableEq, Repr

/-- One pending entry of the external build queue: crate name, version
string, priority and optional registry origin. -/
structure QueueEntry where
  name : String
  version : String
  priority : Int
  origin : Option String
deriving DecidableEq, Repr

/-- Modelled from the spec: the external build queue collaborator with
its pending entries; the accepts flag models whether a submit attempt is
accepted (failure to submit surfaces as a generic submission error). -/
structure BuildQueue where
  entries : List QueueEntry
  accepts : Bool
deriving DecidableEq, Repr

/-- Modelled from the spec: has_build_queued reports whether a pending
entry exists for the given crate and version. -/
def BuildQueue.has_build_queued (q : BuildQueue) (name version : String) : Bool :=
  q.entries.any (fun e => e.name == name && e.version == version)

/-- Modelled from the spec: the number of pending queue entries. -/
def BuildQueue.pending_count (q : BuildQueue) : Nat :=
  q.entries.length

/-- Modelled from the spec: add_crate submits one entry to the queue;
when the queue does not accept, the submission fails and the queue is
unchanged. -/
def BuildQueue.add_crate (q : BuildQueue) (name version : String)
    (priority : Int) (origin : Option String) : Option BuildQueue :=
  if q.accepts then
    some { q with entries := q.entries ++ [⟨name, version, priority, origin⟩] }
  else none

/-- Outcome of the rebuild-trigger endpoint: the named terminal states
of the handler (401 unauthorized with its message, 404, 400 bad request
with its message, a failed submission, or 201 created with a body). -/
inductive RebuildResult
  | unauthorized (message : String)
  | versionNotFound
  | badRequest (message : String)
  | submissionFailed
  | created (body : JsonVal)

/-- build_trigger_check from src/web/builds.rs: confirm the crate and
version exist in the release catalog (CrateDetails::new, absence being
VersionNotFound), then fail with BadRequest naming the crate and version
when the pair is already queued for rebuild; returns the failure when a
check fails. -/
def build_trigger_check (catalog : List Release) (q : BuildQueue)
    (name version : String) : Option RebuildResult :=
  if !(catalog.any (fun r => r.name == name && r.version == version)) then
    some .versionNotFound
  else if q.has_build_queued name version then
    some (.badRequest
      ("crate " ++ name ++ " " ++ version ++ " already queued for rebuild"))
  else
    none

/-- Priority for externally triggered rebuilds; positive because the
priority scale is inverted. -/
def TRIGGERED_REBUILD_PRIORITY : Int := 5

/-- build_trigger_rebuild_handler from src/web/builds.rs, returning the
response together with the resulting queue state. The configured shared
secret (config.cratesio_token) and the bearer token of the request are
passed explicitly. -/
def build_trigger_rebuild_handler (catalog : List Release) (q : BuildQueue)
    (cratesio_token : Option String) (auth_token : Option String)
    (name version : String) : RebuildResult × BuildQueue :=
  match cratesio_token with
  | none => (.unauthorized "Endpoint is not configured", q)
  | some expected_token =>
    match auth_token with
    | none => (.unauthorized "Missing authentication token", q)
    | some token =>
      if token ≠ expected_token then
        (.unauthorized "The token used for authentication is not valid", q)
      else
        match build_trigger_check catalog q name version with
        | some failure => (failure, q)
        | none =>
          match q.add_crate name version TRIGGERED_REBUILD_PRIORITY none with
          | none => (.submissionFailed, q)
          | some q' => (.created (.obj []), q')

theorem build_trigger_check_not_unauthorized
    {catalog : List Release} {q : BuildQueue} {name version : String}
    {failure : RebuildResult} {m : String}
    (h : build_trigger_check catalog q name version = some failure) :
    failure ≠ .unauthorized m := by
  unfold build_trigger_check at h
  split at h
  · cases h
    intro hcontra
    cases hcontra
  · split at h
    · cases h
      intro hcontra
      cases hcontra
    · cases h

/-- C5: with no shared secret configured, every request fails with
Unauthorized and the endpoint-not-configured message, whatever
credential is supplied, and the queue state is unchanged. -/
theorem rebuild_no_secret_unauthorized (catalog : List Release) (q : BuildQueue)
    (auth_token : Option String) (name version : String) :
    build_trigger_rebuild_handler catalog q none auth_token name version
      = (.unauthorized "Endpoint is not configured", q) := rfl

/-- C6: with a secret configured, authorization succeeds exactly when a
bearer token is supplied and equals the secret; a missing token and a
wrong token fail with the two distinct unauthorized messages. -/
theorem rebuild_token_check (catalog : List Release) (q : BuildQueue)
    (secret : String) (name version : String) :
    (build_trigger_rebuild_handler catalog q (some secret) none name version
        = (.unauthorized "Missing authentication token", q))
      ∧ (∀ t, t ≠ secret →
          build_trigger_rebuild_handler catalog q (some secret) (some t) name version
            = (.unauthorized "The token used for authentication is not valid", q))
      ∧ ∀ t, (∀ m, (build_trigger_rebuild_handler catalog q (some secret) (some t)
          name version).1 ≠ .unauthorized m) ↔ t = secret := by
  refine ⟨rfl, ?_, ?_⟩
  · intro t ht
    simp [build_trigger_rebuild_handler, ht]
  · intro t
    constructor
    · intro hall
      by_contra hne
      exact hall "The token used for authentication is not valid"
        (by simp [build_trigger_rebuild_handler, hne])
    · rintro rfl m
      cases hchk : build_trigger_check catalog q name version with
      | some failure =>
        have hnu := build_trigger_check_not_unauthorized (m := m) hchk
        simp [build_trigger_rebuild_handler, hchk, hnu]
      | none =>
        cases hadd : q.add_crate name version TRIGGERED_REBUILD_PRIORITY none with
        | none => simp [build_trigger_rebuild_handler, hchk, hadd]
        | some q' => simp [build_trigger_rebuild_handler, hchk, hadd]

/-- C6 witness: with secret abc configured, a missing token and the
wrong token xyz fail with the two distinct messages. -/
theorem rebuild_token_check_witness :
    build_trigger_rebuild_handler [] ⟨[], true⟩ (some "abc") none "foo" "0.1.0"
        = (.unauthorized "Missing authentication token", ⟨[], true⟩)
      ∧ build_trigger_rebuild_handler [] ⟨[], true⟩ (some "abc") (some "xyz") "foo" "0.1.0"
        = (.unauthorized "The token used for authentication is not valid", ⟨[], true⟩) := by
  refine ⟨(rebuild_token_check [] ⟨[], true⟩ "abc" "foo" "0.1.0").1, ?_⟩
  exact (rebuild_token_check [] ⟨[], true⟩ "abc" "foo" "0.1.0").2.1 "xyz" (by decide)

/-- C7: an authorized rebuild request for a target that is already
queued fails with BadRequest naming the crate and version, and the queue
is unchanged, so in particular the pending count is unchanged. -/
theorem rebuild_already_queued (catalog : List Release) (q : BuildQueue)
    (secret : String) (name version : String)
    (hcat : catalog.any (fun r => r.name == name && r.version == version) = true)
    (hq : q.has_build_queued name version = true) :
    build_trigger_rebuild_handler catalog q (some secret) (some secret) name version
        = (.badRequest
            ("crate " ++ name ++ " " ++ version ++ " already queued for rebuild"), q)
      ∧ (build_trigger_rebuild_handler catalog q (some secret) (some secret)
          name version).2.pending_count = q.pending_count := by
  have h : build_trigger_rebuild_handler catalog q (some secret) (some secret) name version
      = (.badRequest
          ("crate " ++ name ++ " " ++ version ++ " already queued for rebuild"), q) := by
    simp [build_trigger_rebuild_handler, build_trigger_check, hcat, hq]
  exact ⟨h, by rw [h]⟩

/-- C7 witness: with foo 0.1.0 in the catalog and already pending in the
queue, the authorized request fails with the exact message and the
pending count stays at one. -/
theorem rebuild_already_queued_witness :
    ([⟨"foo", "0.1.0"⟩] : List Release).any
        (fun r => r.name == "foo" && r.version == "0.1.0") = true
      ∧ (⟨[⟨"foo", "0.1.0", 5, none⟩], true⟩ : BuildQueue).has_build_queued "foo" "0.1.0"
          = true
      ∧ (build_trigger_rebuild_handler [⟨"foo", "0.1.0"⟩]
            ⟨[⟨"foo", "0.1.0", 5, none⟩], true⟩ (some "abc") (some "abc") "foo" "0.1.0"
            = (.badRequest
                ("crate " ++ "foo" ++ " " ++ "0.1.0" ++ " already queued for rebuild"),
               ⟨[⟨"foo", "0.1.0", 5, none⟩], true⟩)
          ∧ (build_trigger_rebuild_handler [⟨"foo", "0.1.0"⟩]
              ⟨[⟨"foo", "0.1.0", 5, none⟩], true⟩ (some "abc") (some "abc")
              "foo" "0.1.0").2.pending_count
            = (⟨[⟨"foo", "0.1.0", 5, none⟩], true⟩ : BuildQueue).pending_count) := by
  refine ⟨by decide, by decide, ?_⟩
  exact rebuild_already_queued [⟨"foo", "0.1.0"⟩] ⟨[⟨"foo", "0.1.0", 5, none⟩], true⟩
    "abc" "foo" "0.1.0" (by decide) (by decide)

/-- C8: an authorized rebuild request for an existing target that is not
yet queued returns Created with an empty JSON object body, appends
exactly one queue entry for the pair with priority
TRIGGERED_REBUILD_PRIORITY and no origin, increases the pending count by
exactly one, and afterwards has_build_queued holds for the pair. -/
theorem rebuild_success (catalog : List Release) (q : BuildQueue)
    (secret : String) (name version : String)
    (hcat : catalog.any (fun r => r.name == name && r.version == version) = true)
    (hq : q.has_build_queued name version = false)
    (hacc : q.accepts = true) :
    build_trigger_rebuild_handler catalog q (some secret) (some secret) name version
        = (.created (.obj []),
           ⟨q.entries ++ [⟨name, version, TRIGGERED_REBUILD_PRIORITY, none⟩], q.accepts⟩)
      ∧ (build_trigger_rebuild_handler catalog q (some secret) (some secret)
          name version).2.pending_count = q.pending_count + 1
      ∧ (build_trigger_rebuild_handler catalog q (some secret) (some secret)
          name version).2.has_build_queued name version = true := by
  have h : build_trigger_rebuild_handler catalog q (some secret) (some secret) name version
      = (.created (.obj []),
         ⟨q.entries ++ [⟨name, version, TRIGGERED_REBUILD_PRIORITY, none⟩], q.accepts⟩) := by
    simp [build_trigger_rebuild_handler, build_trigger_check, BuildQueue.add_crate,
      hcat, hq, hacc]
  refine ⟨h, ?_, ?_⟩
  · rw [h]
    simp [BuildQueue.pending_count]
  · rw [h]
    simp [BuildQueue.has_build_queued]

/-- C8 witness: with foo 0.1.0 released and an empty accepting queue,
the authorized request returns Created, enqueues one entry at priority
five with no origin, and the pending count goes from zero to one. -/
theorem rebuild_success_witness :
    ([⟨"foo", "0.1.0"⟩] : List Release).any
        (fun r => r.name == "foo" && r.version == "0.1.0") = true
      ∧ (⟨[], true⟩ : BuildQueue).has_build_queued "foo" "0.1.0" = false
      ∧ (build_trigger_rebuild_handler [⟨"foo", "0.1.0"⟩] ⟨[], true⟩
            (some "abc") (some "abc") "foo" "0.1.0"
            = (.created (.obj []),
               ⟨([] : List QueueEntry) ++ [⟨"foo", "0.1.0", TRIGGERED_REBUILD_PRIORITY, none⟩],
                true⟩)
          ∧ (build_trigger_rebuild_handler [⟨"foo", "0.1.0"⟩] ⟨[], true⟩
              (some "abc") (some "abc") "foo" "0.1.0").2.pending_count
            = (⟨[], true⟩ : BuildQueue).pending_count + 1
          ∧ (build_trigger_rebuild_handler [⟨"foo", "0.1.0"⟩] ⟨[], true⟩
              (some "abc") (some "abc") "foo" "0.1.0").2.has_build_queued "foo" "0.1.0"
            = true) := by
  refine ⟨by decide, by decide, ?_⟩
  exact rebuild_success [⟨"foo", "0.1.0"⟩] ⟨[], true⟩ "abc" "foo" "0.1.0"
    (by decide) (by decide) (by decide)

/-- C9: the rebuild handler checks authorization, then target existence
in the release catalog, then queue membership, in that order: each
failing check is terminal with its named failure and leaves the queue
unchanged, a later check is reached only when every earlier one passed,
and the queue is mutated only when all three checks passed and the
submit was accepted, in which case the response is Created. -/
theorem rebuild_check_order (catalog : List Release) (q : BuildQueue)
    (cratesio_token auth_token : Option String) (name version : String) :
    (cratesio_token = none →
        build_trigger_rebuild_handler catalog q cratesio_token auth_token name version
          = (.unauthorized "Endpoint is not configured", q))
      ∧ (∀ secret, cratesio_token = some secret → auth_token = none →
          build_trigger_rebuild_handler catalog q cratesio_token auth_token name version
            = (.unauthorized "Missing authentication token", q))
      ∧ (∀ secret t, cratesio_token = some secret → auth_token = some t → t ≠ secret →
          build_trigger_rebuild_handler catalog q cratesio_token auth_token name version
            = (.unauthorized "The token used for authentication is not valid", q))
      ∧ (∀ secret, cratesio_token = some secret → auth_token = some secret →
          catalog.any (fun r => r.name == name && r.version == version) = false →
          build_trigger_rebuild_handler catalog q cratesio_token auth_token name version
            = (.versionNotFound, q))
      ∧ (∀ secret, cratesio_token = some secret → auth_token = some secret →
          catalog.any (fun r => r.name == name && r.version == version) = true →
          q.has_build_queued name version = true →
          build_trigger_rebuild_handler catalog q cratesio_token auth_token name version
            = (.badRequest
                ("crate " ++ name ++ " " ++ version ++ " already queued for rebuild"), q))
      ∧ (∀ secret, cratesio_token = some secret → auth_token = some secret →
          catalog.any (fun r => r.name == name && r.version == version) = true →
          q.has_build_queued name version = false →
          q.accepts = false →
          build_trigger_rebuild_handler catalog q cratesio_token auth_token name version
            = (.submissionFailed, q))
      ∧ ((build_trigger_rebuild_handler catalog q cratesio_token auth_token
            name version).2 ≠ q →
          cratesio_token = auth_token ∧ cratesio_token ≠ none
            ∧ catalog.any (fun r => r.name == name && r.version == version) = true
            ∧ q.has_build_queued name version = false
            ∧ (build_trigger_rebuild_handler catalog q cratesio_token auth_token
                name version).1 = .created (.obj [])) := by
  refine ⟨?_, ?_, ?_, ?_, ?_, ?_, ?_⟩
  · rintro rfl
    rfl
  · rintro secret rfl rfl
    rfl
  · rintro secret t rfl rfl ht
    simp [build_trigger_rebuild_handler, ht]
  · rintro secret rfl rfl hcat
    simp [build_trigger_rebuild_handler, build_trigger_check, hcat]
  · rintro secret rfl rfl hcat hq
    simp [build_trigger_rebuild_handler, build_trigger_check, hcat, hq]
  · rintro secret rfl rfl hcat hq hacc
    simp [build_trigger_rebuild_handler, build_trigger_check, BuildQueue.add_crate,
      hcat, hq, hacc]
  · intro hmut
    cases cratesio_token with
    | none => simp [build_trigger_rebuild_handler] at hmut
    | some secret =>
      cases auth_token with
      | none => simp [build_trigger_rebuild_handler] at hmut
      | some t =>
        by_cases ht : t = secret
        · subst ht
          cases hcat : catalog.any (fun r => r.name == name && r.version == version) with
          | false =>
            simp [build_trigger_rebuild_handler, build_trigger_check, hcat] at hmut
          | true =>
            cases hq : q.has_build_queued name version with
            | true =>
              simp [build_trigger_rebuild_handler, build_trigger_check, hcat, hq] at hmut
            | false =>
              cases hacc : q.accepts with
              | false =>
                simp [build_trigger_rebuild_handler, build_trigger_check,
                  BuildQueue.add_crate, hcat, hq, hacc] at hmut
              | true =>
                refine ⟨rfl, by simp, rfl, rfl, ?_⟩
                simp [build_trigger_rebuild_handler, build_trigger_check,
                  BuildQueue.add_crate, hcat, hq, hacc]
        · simp [build_trigger_rebuild_handler, ht] at hmut

/-- C9 witness: with a valid token but a target absent from the release
catalog, the handler stops at the existence check with VersionNotFound
and an unchanged queue; with the target present but already queued it
stops at the dedup check. -/
theorem rebuild_check_order_witness :
    (build_trigger_rebuild_handler [] ⟨[], true⟩ (some "abc") (some "abc") "foo" "0.1.0"
        = (.versionNotFound, ⟨[], true⟩))
      ∧ build_trigger_rebuild_handler [⟨"foo", "0.1.0"⟩]
          ⟨[⟨"foo", "0.1.0", 1, none⟩], true⟩ (some "abc") (some "abc") "foo" "0.1.0"
          = (.badRequest
              ("crate " ++ "foo" ++ " " ++ "0.1.0" ++ " already queued for rebuild"),
             ⟨[⟨"foo", "0.1.0", 1, none⟩], true⟩) := by
  constructor
  · exact (rebuild_check_order [] ⟨[], true⟩ (some "abc") (some "abc")
      "foo" "0.1.0").2.2.2.1 "abc" rfl rfl (by decide)
  · exact (rebuild_check_order [⟨"foo", "0.1.0"⟩] ⟨[⟨"foo", "0.1.0", 1, none⟩], true⟩
      (some "abc") (some "abc") "foo" "0.1.0").2.2.2.2.1 "abc" rfl rfl
      (by decide) (by decide)

end DocsRs
